import Mathlib

deriving instance DecidableEq for Except

/-!
# CollectiveBrain — DCBFT consensus engine, formal model

A shallow embedding of the decentralized-consensus ("DCBFT") voting engine
of the CollectiveBrain repository, together with the two consensus endpoint
handlers of `src/api.py`, and theorems settling the claims about them.

The module `consensus_engine.py` itself is not present under `src/`; only
its tests (`src/tests/test_consensus_engine.py`, `src/tests/test_brain.py`)
and its callers (`src/api.py`, `src/supervisor.py`, `src/main.py`,
`src/collective_brain.py`) are.  The engine definitions below are therefore
modelled from the specification (sections 3, 4 and 7 of the spec), with the
tests fixing the observable shapes (result fields, error substrings).
The API handler definitions are translated from `src/api.py` directly.

Machine reals do not appear: the one fractional quantity, the consensus
percentage rounded to one decimal place, is carried exactly as its count of
tenths of a percent (a natural number) and bridged to `ℚ` for the numeric
statements.
-/

namespace CollectiveBrain

/-- Modelled from the spec: `VoteType` — tagged value, one of
APPROVE / REJECT / ABSTAIN (spec §3); `consensus_engine.py` is missing
from `src/`. -/
inductive VoteType where
  | APPROVE
  | REJECT
  | ABSTAIN
deriving DecidableEq

/-- Modelled from the spec: `ConsensusDecision` — tagged outcome, one of
REACHED / FAILED / INSUFFICIENT_VOTES (spec §3); `consensus_engine.py` is
missing from `src/`. -/
inductive ConsensusDecision where
  | REACHED
  | FAILED
  | INSUFFICIENT_VOTES
deriving DecidableEq

/-- Modelled from the spec: `VoteRecord` — agent identifier, `VoteType`,
optional free-text justification; immutable once created (spec §3).  The
cast timestamp is irrelevant to every claim and omitted. -/
structure VoteRecord where
  agent : String
  vote : VoteType
  justification : Option String
deriving DecidableEq

/-- Modelled from the spec: `VoteSession` — one decision under vote
(spec §3).  `votes` is kept in cast order with at most one record per
agent, embedding the `agent → VoteRecord` mapping.  The PENDING/FINALIZED
status is represented by which engine map holds the session. -/
structure VoteSession where
  decision_id : String
  description : String
  required_agents : List String
  quorum : Nat
  votes : List VoteRecord
deriving DecidableEq

/-- Modelled from the spec: the four engine error kinds of spec §7 —
`InsufficientAgents` (carrying the shortfall: required vs. provided count),
`UnknownDecision`, `Unauthorized`, `DuplicateVote`.  Failures are returned
as plain structured data, never thrown (spec §6); the tests read them as
dicts with a `status` of `"failed"` and an `error` message. -/
inductive EngineError where
  | InsufficientAgents (required provided : Nat)
  | UnknownDecision
  | Unauthorized
  | DuplicateVote
deriving DecidableEq

/-- Modelled from the spec: the quorum calculator's
`min_required_agents(f) = 3f + 1` (spec §4.1). -/
def min_required_agents (f : Nat) : Nat := 3 * f + 1

/-- Modelled from the spec: the quorum calculator's
`quorum(N) = ceil(2N/3)` (spec §4.1), written with natural division:
`(2N + 2) / 3 = ⌈2N/3⌉` (proved as `calculate_quorum_eq_ceil` below).
Named `_calculate_quorum` in the tests. -/
def calculate_quorum (n : Nat) : Nat := (2 * n + 2) / 3

/-- Modelled from the spec: the consensus percentage
`approve_count / len(required_agents) * 100`, rounded to one decimal place
(spec §4.2 tally), carried exactly as a count of tenths of a percent:
`pct_tenths a n = round (1000 * a / n)` with ties rounded up
(proved as `pct_tenths_cast` below). -/
def pct_tenths (approve n : Nat) : Nat := (2000 * approve + n) / (2 * n)

/-- Modelled from the spec: the tally result of spec §4.2 — decision tag,
`votes_cast`, `quorum_required`, `quorum_met`, the APPROVE/REJECT/ABSTAIN
breakdown, and the consensus percentage (as tenths of a percent). -/
structure TallyResult where
  decision : ConsensusDecision
  votes_cast : Nat
  quorum_required : Nat
  quorum_met : Bool
  approve_count : Nat
  reject_count : Nat
  abstain_count : Nat
  consensus_percentage_tenths : Nat
deriving DecidableEq

/-- The consensus percentage of a tally result as an exact rational:
the stored tenths count divided by 10 (so `750` tenths is `75.0`). -/
def TallyResult.consensus_percentage (r : TallyResult) : ℚ :=
  (r.consensus_percentage_tenths : ℚ) / 10

/-- Modelled from the spec: the engine state of spec §3 —
`max_faulty_agents (f)` fixed at construction, a `pending_decisions` map
and a `finalized_decisions` map (the latter retaining the tally result).
Both maps are association lists keyed by decision id. -/
structure EngineState where
  max_faulty_agents : Nat
  pending_decisions : List (String × VoteSession)
  finalized_decisions : List (String × VoteSession × TallyResult)
deriving DecidableEq

/-- Modelled from the spec: engine construction
`DCBFTEngine(max_faulty_agents=f)` with empty session registries
(spec §4.2). -/
def DCBFTEngine.new (f : Nat) : EngineState :=
  { max_faulty_agents := f, pending_decisions := [], finalized_decisions := [] }

/-- Modelled from the spec: `initiate_vote(decision_id, description,
agents)` (spec §4.2).  If `len(agents) < min_required_agents` it returns an
`InsufficientAgents` failure carrying the shortfall and records nothing
(the only validation at initiation); otherwise it stores a fresh PENDING
session with `quorum = quorum(len(agents))`, overwriting any prior pending
session with the same id, and returns the session. -/
def initiate_vote (st : EngineState) (decision_id description : String)
    (agents : List String) : Except EngineError VoteSession × EngineState :=
  let minReq := min_required_agents st.max_faulty_agents
  if agents.length < minReq then
    (Except.error (EngineError.InsufficientAgents minReq agents.length), st)
  else
    let s : VoteSession :=
      { decision_id := decision_id, description := description,
        required_agents := agents, quorum := calculate_quorum agents.length,
        votes := [] }
    (Except.ok s,
      { st with pending_decisions :=
          (decision_id, s) :: st.pending_decisions.filter (fun p => p.1 != decision_id) })

/-- Modelled from the spec: the confirmation returned by a successful
`cast_vote` — the recorded vote and the running count of votes cast so far
(spec §4.2; the test reads `vote_recorded` and `total_votes`). -/
structure VoteConfirmation where
  vote_recorded : VoteType
  total_votes : Nat
deriving DecidableEq

/-- Modelled from the spec: `cast_vote(decision_id, agent_id, vote_type,
justification?)` (spec §4.2), with its ordered checks, each a distinct
failure kind: (1) no PENDING session for `decision_id` → `UnknownDecision`
(sessions live in `pending_decisions` only while PENDING, so one lookup
covers "does not exist or is not PENDING"); (2) `agent_id` not among
`required_agents` → `Unauthorized`; (3) `agent_id` already voted →
`DuplicateVote`; (4) otherwise a new `VoteRecord` is appended and a
confirmation with the running vote count is returned.  Every failure
leaves the state unchanged. -/
def cast_vote (st : EngineState) (decision_id agent_id : String)
    (vote_type : VoteType) (justification : Option String) :
    Except EngineError VoteConfirmation × EngineState :=
  match st.pending_decisions.lookup decision_id with
  | none => (Except.error EngineError.UnknownDecision, st)
  | some s =>
    if ¬ s.required_agents.contains agent_id then
      (Except.error EngineError.Unauthorized, st)
    else if s.votes.any (fun r => r.agent == agent_id) then
      (Except.error EngineError.DuplicateVote, st)
    else
      let s' : VoteSession :=
        { s with votes := s.votes ++
            [{ agent := agent_id, vote := vote_type, justification := justification }] }
      (Except.ok { vote_recorded := vote_type, total_votes := s'.votes.length },
        { st with pending_decisions :=
            (decision_id, s') :: st.pending_decisions.filter (fun p => p.1 != decision_id) })

/-- Modelled from the spec: the count of votes of one type among the
recorded votes (the `vote_breakdown` of spec §4.2). -/
def countVote (votes : List VoteRecord) (vt : VoteType) : Nat :=
  (votes.filter (fun r => r.vote == vt)).length

/-- Modelled from the spec: the pure tally computation of spec §4.2 —
`votes_cast = len(votes)`, `quorum_met = votes_cast ≥ quorum`, the decision
classification (`INSUFFICIENT_VOTES` when quorum is not met, `REACHED`
when met with `approve_count ≥ quorum`, `FAILED` otherwise), and the
consensus percentage over the required agents. -/
def computeTally (s : VoteSession) : TallyResult :=
  let approve := countVote s.votes VoteType.APPROVE
  let reject := countVote s.votes VoteType.REJECT
  let abstain := countVote s.votes VoteType.ABSTAIN
  let votes_cast := s.votes.length
  let quorum_met := decide (votes_cast ≥ s.quorum)
  let decision :=
    if votes_cast < s.quorum then ConsensusDecision.INSUFFICIENT_VOTES
    else if approve ≥ s.quorum then ConsensusDecision.REACHED
    else ConsensusDecision.FAILED
  { decision := decision, votes_cast := votes_cast, quorum_required := s.quorum,
    quorum_met := quorum_met, approve_count := approve, reject_count := reject,
    abstain_count := abstain,
    consensus_percentage_tenths := pct_tenths approve s.required_agents.length }

/-- Modelled from the spec: `tally_votes(decision_id)` (spec §4.2).  On a
PENDING session it computes the tally, moves the session (with its result
attached) from `pending_decisions` to `finalized_decisions`, and returns
the result; on an already-finalized session it returns the stored result
idempotently without recomputation or mutation; on an unknown id it
fails with `UnknownDecision`. -/
def tally_votes (st : EngineState) (decision_id : String) :
    Except EngineError TallyResult × EngineState :=
  match st.pending_decisions.lookup decision_id with
  | some s =>
    let r := computeTally s
    (Except.ok r,
      { st with
          pending_decisions := st.pending_decisions.filter (fun p => p.1 != decision_id),
          finalized_decisions := (decision_id, s, r) :: st.finalized_decisions })
  | none =>
    match st.finalized_decisions.lookup decision_id with
    | some (_, r) => (Except.ok r, st)
    | none => (Except.error EngineError.UnknownDecision, st)

/-- Modelled from the spec: the read-only snapshot returned by
`get_decision_status` (spec §4.2) — required agents, quorum, current vote
count, `is_finalized` flag, and the stored tally when finalized. -/
structure SessionSnapshot where
  required_agents : List String
  quorum : Nat
  vote_count : Nat
  is_finalized : Bool
  tally : Option TallyResult
deriving DecidableEq

/-- Modelled from the spec: `get_decision_status(decision_id)` (spec §4.2)
— a snapshot from whichever store holds the id, or an absent result when
the id is unknown in both. -/
def get_decision_status (st : EngineState) (decision_id : String) :
    Option SessionSnapshot :=
  match st.pending_decisions.lookup decision_id with
  | some s =>
    some { required_agents := s.required_agents, quorum := s.quorum,
           vote_count := s.votes.length, is_finalized := false, tally := none }
  | none =>
    match st.finalized_decisions.lookup decision_id with
    | some (s, r) =>
      some { required_agents := s.required_agents, quorum := s.quorum,
             vote_count := s.votes.length, is_finalized := true, tally := some r }
    | none => none

/-- Modelled from the spec: the "insufficient nodes" message of the legacy
verifier, naming the shortfall (spec §4.3; the test only checks that
"Insufficient nodes" occurs in it). -/
def insufficient_nodes_msg (needed got : Nat) : String :=
  "Insufficient nodes: need " ++ toString needed ++ ", got " ++ toString got

/-- Modelled from the spec: the classical PBFT safety threshold `2f + 1`
used by the legacy verifier (spec §4.3). -/
def pbft_threshold (f : Nat) : Nat := 2 * f + 1

/-- Modelled from the spec: the legacy stateless verifier
`verify_consensus(votes, f)` (spec §4.3) — insufficient nodes when
`len(votes) < 3f+1`, else "Consensus Reached" iff `count(true) ≥ 2f+1`,
otherwise "Consensus Failed". -/
def verify_consensus (votes : List Bool) (f : Nat) : String :=
  if votes.length < 3 * f + 1 then
    insufficient_nodes_msg (3 * f + 1) votes.length
  else if pbft_threshold f ≤ votes.count true then
    "Consensus Reached"
  else
    "Consensus Failed"

/-! ## The consensus endpoint handlers of `src/api.py`

These definitions are translated from `src/api.py` (present under `src/`).
The module-level engine there is `DCBFTEngine(max_faulty_agents=1)`
(line 45). -/

/-- Python's `str.lower()` (used by the vote handler on the submitted vote
string, `src/api.py` line 216), embedded as a per-character lowercase map
over the string's characters. -/
def lower_string (s : String) : String := String.mk (s.data.map Char.toLower)

/-- The `vote_map` dict lookup of `src/api.py` lines 210-216:
`{"approve": APPROVE, "reject": REJECT, "abstain": ABSTAIN}.get(...)`. -/
def vote_map (s : String) : Option VoteType :=
  if s = "approve" then some VoteType.APPROVE
  else if s = "reject" then some VoteType.REJECT
  else if s = "abstain" then some VoteType.ABSTAIN
  else none

/-- An HTTP-level outcome of the vote endpoint: the JSON success body
`{"ok": true, "agent": ..., "vote": ...}` or an `HTTPException` with a
status code and detail message. -/
inductive ApiVoteResponse where
  | success (agent vote : String)
  | clientError (code : Nat) (detail : String)
deriving DecidableEq

/-- The `POST /consensus/\x7bdecision_id\x7d/vote` handler of `src/api.py`
lines 207-224.  An unmapped vote string yields a 400 response.  Otherwise
the handler calls `consensus_engine.cast_vote(...)`, DISCARDS its return
value, and unconditionally returns the success body.  The engine reports
expected failures as returned data, not exceptions (spec §6), so the
handler's `except` branch (mapping exceptions to a 400) never fires for an
engine-rejected vote; it is therefore not a reachable branch of this
embedding. -/
def api_cast_vote (st : EngineState) (decision_id agent vote rationale : String) :
    ApiVoteResponse × EngineState :=
  match vote_map (lower_string vote) with
  | none => (ApiVoteResponse.clientError 400 ("Invalid vote: " ++ vote), st)
  | some vt =>
    let res := cast_vote st decision_id agent vt (some rationale)
    (ApiVoteResponse.success agent vote, res.2)

/-- The `["quorum"]` subscript applied by the initiate handler to the
engine's `initiate_vote` result (`src/api.py` line 201).  On success the
returned session carries its quorum (spec §4.2: the session's public
fields include the quorum); on failure the result carries only the failure
status and error (per `test_initiate_vote_insufficient_agents`), so the
key is absent. -/
def initiate_result_quorum : Except EngineError VoteSession → Option Nat
  | Except.ok s => some s.quorum
  | Except.error _ => none

/-- An HTTP-level outcome of the initiate endpoint: the structured
`ConsensusResponse`, or an uncaught missing-key (`KeyError`) failure
escaping the handler (there is no `try/except` around this handler's
body). -/
inductive ApiInitiateOutcome where
  | response (decision_id : String) (quorum total_agents : Nat)
  | keyError (key : String)
deriving DecidableEq

/-- The `POST /consensus/initiate` handler of `src/api.py` lines 188-205:
it calls `initiate_vote` and unconditionally reads `session["quorum"]` to
build the response; when the key is absent the subscript raises `KeyError`
and no structured response is produced. -/
def api_initiate_consensus (st : EngineState) (decision_id description : String)
    (agents : List String) : ApiInitiateOutcome × EngineState :=
  let res := initiate_vote st decision_id description agents
  match initiate_result_quorum res.1 with
  | none => (ApiInitiateOutcome.keyError "quorum", res.2)
  | some q => (ApiInitiateOutcome.response decision_id q agents.length, res.2)

/-! ## Concrete scenario states

The states exercised by the tests: an engine with `max_faulty_agents = 1`
(as in `src/api.py` line 45 and throughout the tests) and the four-agent
sessions of `test_consensus_engine.py` and of spec §8. -/

/-- An engine constructed with `max_faulty_agents = 1`. -/
def engineF1 : EngineState := DCBFTEngine.new 1

/-- The four-agent list of `test_consensus_engine.py`. -/
def fourAgents : List String := ["agent_1", "agent_2", "agent_3", "agent_4"]

/-- State after an `initiate_vote` call, discarding the returned value. -/
def initStep (st : EngineState) (id d : String) (agents : List String) : EngineState :=
  (initiate_vote st id d agents).2

/-- State after a `cast_vote` call with no justification, discarding the
returned value. -/
def castStep (st : EngineState) (id a : String) (vt : VoteType) : EngineState :=
  (cast_vote st id a vt none).2

/-- The state of `test_tally_votes_consensus_failed`: a quorum-3 session
with three votes cast — one APPROVE, two REJECT. -/
def failedScenario : EngineState :=
  castStep (castStep (castStep (initStep engineF1 "test_decision" "Test" fourAgents)
    "test_decision" "agent_1" VoteType.APPROVE)
    "test_decision" "agent_2" VoteType.REJECT)
    "test_decision" "agent_3" VoteType.REJECT

/-- The pending session stored in `failedScenario`. -/
def failedSession : VoteSession :=
  { decision_id := "test_decision", description := "Test",
    required_agents := fourAgents, quorum := 3,
    votes := [{ agent := "agent_1", vote := VoteType.APPROVE, justification := none },
              { agent := "agent_2", vote := VoteType.REJECT, justification := none },
              { agent := "agent_3", vote := VoteType.REJECT, justification := none }] }

/-- The state of Scenario A (spec §8): f=1, four agents, three APPROVE
votes and one REJECT. -/
def scenarioA : EngineState :=
  castStep (castStep (castStep (castStep (initStep engineF1 "scenario_a" "Test" fourAgents)
    "scenario_a" "agent_1" VoteType.APPROVE)
    "scenario_a" "agent_2" VoteType.APPROVE)
    "scenario_a" "agent_3" VoteType.APPROVE)
    "scenario_a" "agent_4" VoteType.REJECT

/-- The pending session stored in `scenarioA`. -/
def scenarioASession : VoteSession :=
  { decision_id := "scenario_a", description := "Test",
    required_agents := fourAgents, quorum := 3,
    votes := [{ agent := "agent_1", vote := VoteType.APPROVE, justification := none },
              { agent := "agent_2", vote := VoteType.APPROVE, justification := none },
              { agent := "agent_3", vote := VoteType.APPROVE, justification := none },
              { agent := "agent_4", vote := VoteType.REJECT, justification := none }] }

/-- The tally of Scenario A: REACHED, breakdown 3/1/0, 75.0 percent
(750 tenths). -/
def scenarioATally : TallyResult :=
  { decision := ConsensusDecision.REACHED, votes_cast := 4, quorum_required := 3,
    quorum_met := true, approve_count := 3, reject_count := 1, abstain_count := 0,
    consensus_percentage_tenths := 750 }

/-- The tally of the failed scenario: FAILED, breakdown 1/2/0, 25.0
percent (250 tenths). -/
def failedTally : TallyResult :=
  { decision := ConsensusDecision.FAILED, votes_cast := 3, quorum_required := 3,
    quorum_met := true, approve_count := 1, reject_count := 2, abstain_count := 0,
    consensus_percentage_tenths := 250 }

/-- The state of `test_cast_vote_duplicate` just before the duplicate
vote: a four-agent session in which `agent_1` has already voted APPROVE. -/
def dupScenario : EngineState :=
  castStep (initStep engineF1 "test_decision" "Test" fourAgents)
    "test_decision" "agent_1" VoteType.APPROVE

/-- The pending session stored in `dupScenario`. -/
def dupSession : VoteSession :=
  { decision_id := "test_decision", description := "Test",
    required_agents := fourAgents, quorum := 3,
    votes := [{ agent := "agent_1", vote := VoteType.APPROVE, justification := none }] }

/-- The tally result of a `tally_votes` call, or `none` on failure. -/
def tallyOk (st : EngineState) (id : String) : Option TallyResult :=
  match (tally_votes st id).1 with
  | Except.ok r => some r
  | Except.error _ => none

/-! ## Helper lemmas -/

/-- Filtering an association list on keys different from `id` removes
every binding for `id`. -/
theorem lookup_filter_self {β : Type} (l : List (String × β)) (id : String) :
    (l.filter (fun p => p.1 != id)).lookup id = none := by
  induction l with
  | nil => rfl
  | cons hd tl ih =>
    obtain ⟨k, b⟩ := hd
    by_cases hhd : k = id
    · simp only [List.filter_cons]
      rw [show ((k, b).1 != id) = false by simp [hhd]]
      exact ih
    · simp only [List.filter_cons]
      rw [show ((k, b).1 != id) = true by simp [hhd]]
      rw [if_pos rfl]
      rw [List.lookup_cons]
      rw [show (id == k) = false by simp [Ne.symm hhd]]
      exact ih

/-- The tenths-of-a-percent count is the integer rounding of
`1000 * approve / n` (ties rounded up). -/
theorem pct_tenths_cast (a n : Nat) (hn : 0 < n) :
    ((pct_tenths a n : ℤ)) = round ((1000 * (a : ℚ)) / (n : ℚ)) := by
  unfold pct_tenths
  rw [round_eq]
  have key : (1000 * (a : ℚ)) / (n : ℚ) + 1/2
      = ((2000 * a + n : ℤ) : ℚ) / ((2 * n : ℕ) : ℚ) := by
    have hn' : (n : ℚ) ≠ 0 := Nat.cast_ne_zero.2 hn.ne'
    push_cast
    field_simp
    ring
  rw [key, Rat.floor_intCast_div_natCast]
  push_cast
  rfl

/-- Unanimous approval gives exactly 1000 tenths, i.e. 100.0 percent. -/
theorem pct_tenths_self (n : Nat) (hn : 0 < n) : pct_tenths n n = 1000 := by
  have h := pct_tenths_cast n n hn
  have hn' : (n : ℚ) ≠ 0 := Nat.cast_ne_zero.2 hn.ne'
  rw [mul_div_assoc, div_self hn', mul_one] at h
  rw [show ((1000 : ℚ)) = ((1000 : ℤ) : ℚ) by norm_num, round_intCast] at h
  exact_mod_cast h

/-- On a state whose pending map has no binding for `id` but whose
finalized map stores `(s, r)`, `tally_votes` returns the stored result and
leaves the state unchanged. -/
theorem tally_votes_of_finalized (st : EngineState) (id : String) (s : VoteSession)
    (r : TallyResult) (hp : st.pending_decisions.lookup id = none)
    (hf : st.finalized_decisions.lookup id = some (s, r)) :
    tally_votes st id = (Except.ok r, st) := by
  unfold tally_votes
  rw [hp, hf]

/-- On a state whose pending map has no binding for `id`, `cast_vote`
fails with `UnknownDecision` and leaves the state unchanged. -/
theorem cast_vote_unknown (st : EngineState) (id a : String) (vt : VoteType)
    (j : Option String) (hp : st.pending_decisions.lookup id = none) :
    cast_vote st id a vt j = (Except.error EngineError.UnknownDecision, st) := by
  unfold cast_vote
  rw [hp]

/-! ## Claims -/

/-- Claim C4. For every N > 0 the quorum calculator returns `ceil(2N/3)`,
with ties rounded up; in particular `quorum(3) = 2`, `quorum(4) = 3` and
`quorum(5) = 4`. -/
theorem calculate_quorum_eq_ceil (n : Nat) (h : 0 < n) :
    ((calculate_quorum n : ℤ) = ⌈(2 * (n : ℚ)) / 3⌉) ∧
    calculate_quorum 3 = 2 ∧ calculate_quorum 4 = 3 ∧ calculate_quorum 5 = 4 := by
  refine ⟨?_, by decide, by decide, by decide⟩
  unfold calculate_quorum
  rw [eq_comm, Int.ceil_eq_iff]
  obtain ⟨k, hk⟩ : ∃ k, (2*n+2)/3 = k := ⟨_, rfl⟩
  rw [hk]
  have h3 : 2*n ≤ 3*k := by omega
  have h4 : 3*k < 2*n + 3 := by omega
  have h3q : (2*(n:ℚ)) ≤ 3*(k:ℚ) := by exact_mod_cast h3
  have h4q : (3*(k:ℚ)) < 2*(n:ℚ) + 3 := by exact_mod_cast h4
  constructor
  · rw [lt_div_iff₀ (by norm_num : (0:ℚ) < 3)]
    push_cast
    linarith
  · rw [div_le_iff₀ (by norm_num : (0:ℚ) < 3)]
    push_cast
    linarith

/-- Witness for C4 at N = 4. -/
theorem calculate_quorum_eq_ceil_witness :
    0 < 4 ∧ calculate_quorum 4 = 3 :=
  ⟨by decide, (calculate_quorum_eq_ceil 4 (by decide)).2.2.1⟩

/-- Claim C8. For every f ≥ 0 and every N ≥ 3f+1, the engine's quorum
`ceil(2N/3)` equals the legacy verifier's threshold `2f+1` exactly when
`N = 3f+1`, and is strictly greater for every `N > 3f+1`. -/
theorem quorum_vs_pbft_threshold (f n : Nat) (h : min_required_agents f ≤ n) :
    (calculate_quorum n = pbft_threshold f ↔ n = min_required_agents f) ∧
    (min_required_agents f < n → pbft_threshold f < calculate_quorum n) := by
  unfold calculate_quorum pbft_threshold min_required_agents at *
  omega

/-- Witness for C8 at f = 1, N = 7. -/
theorem quorum_vs_pbft_threshold_witness :
    min_required_agents 1 ≤ 7 ∧ min_required_agents 1 < 7 ∧
    pbft_threshold 1 < calculate_quorum 7 :=
  ⟨by decide, by decide, (quorum_vs_pbft_threshold 1 7 (by decide)).2 (by decide)⟩

/-- Claim C6. `verify_consensus(votes, f)` returns the insufficient-nodes
message naming the shortfall whenever `len(votes) < 3f+1`; otherwise it
returns "Consensus Reached" iff the number of true entries is ≥ 2f+1 and
"Consensus Failed" otherwise.  In particular `verify_consensus([T,T], 1)`
reports insufficient nodes and `verify_consensus([T,F,F,F], 1)` reports
"Consensus Failed". -/
theorem verify_consensus_spec (votes : List Bool) (f : Nat) :
    (votes.length < 3 * f + 1 →
      verify_consensus votes f = insufficient_nodes_msg (3 * f + 1) votes.length) ∧
    (3 * f + 1 ≤ votes.length →
      ((verify_consensus votes f = "Consensus Reached" ↔ 2 * f + 1 ≤ votes.count true) ∧
       (verify_consensus votes f = "Consensus Failed" ↔ votes.count true < 2 * f + 1))) ∧
    verify_consensus [true, true] 1 = insufficient_nodes_msg 4 2 ∧
    verify_consensus [true, false, false, false] 1 = "Consensus Failed" := by
  refine ⟨?_, ?_, by decide, by decide⟩
  · intro h
    unfold verify_consensus
    rw [if_pos h]
  · intro h
    unfold verify_consensus pbft_threshold
    rw [if_neg (by omega)]
    by_cases hc : 2 * f + 1 ≤ votes.count true
    · rw [if_pos hc]
      exact ⟨iff_of_true rfl hc, iff_of_false (by decide) (by omega)⟩
    · rw [if_neg hc]
      exact ⟨iff_of_false (by decide) hc, iff_of_true rfl (by omega)⟩

/-- Witness for C6 on the four-vote list of Scenario D. -/
theorem verify_consensus_spec_witness :
    3 * 1 + 1 ≤ ([true, false, false, false] : List Bool).length ∧
    (verify_consensus [true, false, false, false] 1 = "Consensus Failed" ↔
      ([true, false, false, false] : List Bool).count true < 2 * 1 + 1) :=
  ⟨by decide, ((verify_consensus_spec [true, false, false, false] 1).2.1 (by decide)).2⟩

/-- Claim C10. On a consensus-initiation request whose agent list is
shorter than the engine's minimum (2 agents with `max_faulty_agents = 1`),
the `/consensus/initiate` handler does not return a structured failure
response: the engine's failure result carries only the failure status and
error (no "quorum" key), and the handler's unconditional `session["quorum"]`
read fails with a missing-key error. -/
theorem api_initiate_missing_key :
    (initiate_vote engineF1 "test_decision" "Test decision" ["agent_1", "agent_2"]).1 =
      Except.error (EngineError.InsufficientAgents 4 2) ∧
    initiate_result_quorum
      (initiate_vote engineF1 "test_decision" "Test decision" ["agent_1", "agent_2"]).1 = none ∧
    (api_initiate_consensus engineF1 "test_decision" "Test decision" ["agent_1", "agent_2"]).1 =
      ApiInitiateOutcome.keyError "quorum" := by
  decide

/-- Claim C9, evaluated at its failing input: in `dupScenario` the engine
rejects `agent_1`'s second vote with `DuplicateVote`, yet the
`/consensus/.../vote` handler — which discards the engine's returned
result — reports plain success, not a 4xx response carrying the engine's
message. -/
theorem api_vote_reports_success_for_rejected_vote :
    (cast_vote dupScenario "test_decision" "agent_1" VoteType.REJECT (some "second")).1 =
      Except.error EngineError.DuplicateVote ∧
    (api_cast_vote dupScenario "test_decision" "agent_1" "reject" "second").1 =
      ApiVoteResponse.success "agent_1" "reject" ∧
    (api_cast_vote dupScenario "test_decision" "agent_1" "reject" "second").2 = dupScenario := by
  decide

/-- Claim C1. For every session, `tally_votes` classifies the outcome
from the recorded votes: `votes_cast` equals the number of recorded votes,
`quorum_met` equals `votes_cast ≥ quorum`; no quorum gives
INSUFFICIENT_VOTES, quorum with `approve_count ≥ quorum` gives REACHED,
quorum with `approve_count < quorum` gives FAILED.  In particular a
quorum-3 session with 3 votes cast, 1 approve and 2 reject, tallies as
FAILED, not INSUFFICIENT_VOTES. -/
theorem tally_votes_classification (st : EngineState) (id : String) (s : VoteSession)
    (h : st.pending_decisions.lookup id = some s) :
    tallyOk st id = some (computeTally s) ∧
    (computeTally s).votes_cast = s.votes.length ∧
    (computeTally s).approve_count = countVote s.votes VoteType.APPROVE ∧
    ((computeTally s).quorum_met = true ↔ s.quorum ≤ s.votes.length) ∧
    ((computeTally s).quorum_met = false →
      (computeTally s).decision = ConsensusDecision.INSUFFICIENT_VOTES) ∧
    ((computeTally s).quorum_met = true → s.quorum ≤ (computeTally s).approve_count →
      (computeTally s).decision = ConsensusDecision.REACHED) ∧
    ((computeTally s).quorum_met = true → (computeTally s).approve_count < s.quorum →
      (computeTally s).decision = ConsensusDecision.FAILED) ∧
    tallyOk failedScenario "test_decision" = some failedTally ∧
    failedTally.decision = ConsensusDecision.FAILED := by
  refine ⟨?_, rfl, rfl, ?_, ?_, ?_, ?_, by decide, by decide⟩
  · unfold tallyOk tally_votes
    rw [h]
  · simp [computeTally]
  · intro hq
    simp only [computeTally, decide_eq_false_iff_not, not_le] at hq
    simp [computeTally, hq]
  · intro hq ha
    simp only [computeTally, decide_eq_true_eq] at hq
    simp only [computeTally] at ha ⊢
    rw [if_neg (by omega), if_pos (by exact ha)]
  · intro hq ha
    simp only [computeTally, decide_eq_true_eq] at hq
    simp only [computeTally] at ha ⊢
    rw [if_neg (by omega), if_neg (by omega)]

/-- Witness for C1 on the failed scenario. -/
theorem tally_votes_classification_witness :
    failedScenario.pending_decisions.lookup "test_decision" = some failedSession ∧
    (computeTally failedSession).quorum_met = true ∧
    (computeTally failedSession).approve_count < failedSession.quorum ∧
    (computeTally failedSession).decision = ConsensusDecision.FAILED :=
  ⟨by decide, by decide, by decide,
    (tally_votes_classification failedScenario "test_decision" failedSession
      (by decide)).2.2.2.2.2.2.1 (by decide) (by decide)⟩

/-- Claim C2. `cast_vote` evaluates its checks in order, each a distinct
failure kind: no PENDING session for the id gives `UnknownDecision`; an
agent outside `required_agents` gives `Unauthorized`; an agent that has
already voted gives `DuplicateVote`, leaving the state (hence the first
vote's record) unchanged; otherwise a new record is appended and the
confirmation carries the running vote count. -/
theorem cast_vote_ordered_checks (st : EngineState) (id a : String)
    (vt : VoteType) (j : Option String) :
    (st.pending_decisions.lookup id = none →
      cast_vote st id a vt j = (Except.error EngineError.UnknownDecision, st)) ∧
    (∀ s, st.pending_decisions.lookup id = some s →
      ((a ∉ s.required_agents →
        cast_vote st id a vt j = (Except.error EngineError.Unauthorized, st)) ∧
       (a ∈ s.required_agents → (∃ r ∈ s.votes, r.agent = a) →
        cast_vote st id a vt j = (Except.error EngineError.DuplicateVote, st)) ∧
       (a ∈ s.required_agents → (∀ r ∈ s.votes, r.agent ≠ a) →
        cast_vote st id a vt j =
          (Except.ok { vote_recorded := vt, total_votes := s.votes.length + 1 },
           { st with pending_decisions :=
               (id, { s with votes := s.votes ++
                   [{ agent := a, vote := vt, justification := j }] }) ::
                 st.pending_decisions.filter (fun p => p.1 != id) })))) := by
  constructor
  · intro h
    unfold cast_vote
    rw [h]
  · intro s hs
    refine ⟨?_, ?_, ?_⟩
    · intro ha
      have hc : ¬ (s.required_agents.contains a = true) := by simpa using ha
      unfold cast_vote
      rw [hs]
      dsimp only
      rw [if_pos hc]
    · intro ha hd
      have hc : s.required_agents.contains a = true := List.elem_iff.2 ha
      have hany : s.votes.any (fun r => r.agent == a) = true := by
        simp only [List.any_eq_true, beq_iff_eq]
        exact hd
      unfold cast_vote
      rw [hs]
      dsimp only
      rw [if_neg (not_not_intro hc), if_pos hany]
    · intro ha hd
      have hc : s.required_agents.contains a = true := List.elem_iff.2 ha
      have hany : s.votes.any (fun r => r.agent == a) = false := by
        simp only [List.any_eq_false, beq_iff_eq]
        exact hd
      unfold cast_vote
      rw [hs]
      dsimp only
      rw [if_neg (not_not_intro hc), if_neg (by simp [hany])]
      simp [List.length_append]

/-- Witness for C2: the duplicate-vote branch on `dupScenario`. -/
theorem cast_vote_ordered_checks_witness :
    dupScenario.pending_decisions.lookup "test_decision" = some dupSession ∧
    "agent_1" ∈ dupSession.required_agents ∧
    (∃ r ∈ dupSession.votes, r.agent = "agent_1") ∧
    cast_vote dupScenario "test_decision" "agent_1" VoteType.REJECT none =
      (Except.error EngineError.DuplicateVote, dupScenario) :=
  ⟨by decide, by decide, by decide,
    ((cast_vote_ordered_checks dupScenario "test_decision" "agent_1" VoteType.REJECT
        none).2 dupSession (by decide)).2.1 (by decide) (by decide)⟩

/-- Claim C3. `initiate_vote` fails iff `len(agents) < 3f+1` (the engine's
`min_required_agents`, derived at construction); on failure the result
carries the shortfall, nothing is recorded, and no session for the id
becomes retrievable. -/
theorem initiate_vote_below_minimum (st : EngineState) (id d : String)
    (agents : List String) :
    ((∃ e, (initiate_vote st id d agents).1 = Except.error e) ↔
      agents.length < min_required_agents st.max_faulty_agents) ∧
    (agents.length < min_required_agents st.max_faulty_agents →
      initiate_vote st id d agents =
        (Except.error (EngineError.InsufficientAgents
          (min_required_agents st.max_faulty_agents) agents.length), st)) ∧
    (agents.length < min_required_agents st.max_faulty_agents →
      get_decision_status (initiate_vote st id d agents).2 id =
        get_decision_status st id) := by
  by_cases h : agents.length < min_required_agents st.max_faulty_agents
  · have he : initiate_vote st id d agents =
        (Except.error (EngineError.InsufficientAgents
          (min_required_agents st.max_faulty_agents) agents.length), st) := by
      unfold initiate_vote
      rw [if_pos h]
    refine ⟨⟨fun _ => h,
      fun _ => ⟨EngineError.InsufficientAgents
        (min_required_agents st.max_faulty_agents) agents.length, by rw [he]⟩⟩,
      fun _ => he, fun _ => by rw [he]⟩
  · have he : initiate_vote st id d agents =
        (Except.ok (VoteSession.mk id d agents (calculate_quorum agents.length) []),
          EngineState.mk st.max_faulty_agents
            ((id, VoteSession.mk id d agents (calculate_quorum agents.length) []) ::
              st.pending_decisions.filter (fun p => p.1 != id))
            st.finalized_decisions) := by
      unfold initiate_vote
      rw [if_neg h]
    refine ⟨⟨?_, fun hlt => absurd hlt h⟩, fun hlt => absurd hlt h,
      fun hlt => absurd hlt h⟩
    rintro ⟨e, hee⟩
    rw [he] at hee
    exact absurd hee (by simp)

/-- Witness for C3: two agents against an f=1 engine. -/
theorem initiate_vote_below_minimum_witness :
    (["agent_1", "agent_2"] : List String).length <
      min_required_agents engineF1.max_faulty_agents ∧
    initiate_vote engineF1 "test_decision" "Test" ["agent_1", "agent_2"] =
      (Except.error (EngineError.InsufficientAgents 4 2), engineF1) :=
  ⟨by decide,
    (initiate_vote_below_minimum engineF1 "test_decision" "Test"
      ["agent_1", "agent_2"]).2.1 (by decide)⟩

/-- Claim C5. `tally_votes` finalizes a session exactly once: on any
outcome the session moves from the pending map to the finalized map with
its tally attached, and every later `tally_votes` call for the same id
returns the stored result idempotently without recomputing or mutating,
while further votes are refused. -/
theorem tally_votes_finalizes_once (st : EngineState) (id : String) (s : VoteSession)
    (h : st.pending_decisions.lookup id = some s) :
    tally_votes st id = (Except.ok (computeTally s),
      { st with
          pending_decisions := st.pending_decisions.filter (fun p => p.1 != id),
          finalized_decisions := (id, s, computeTally s) :: st.finalized_decisions }) ∧
    (tally_votes st id).2.pending_decisions.lookup id = none ∧
    (tally_votes st id).2.finalized_decisions.lookup id = some (s, computeTally s) ∧
    tally_votes (tally_votes st id).2 id =
      (Except.ok (computeTally s), (tally_votes st id).2) ∧
    (∀ a vt j, cast_vote (tally_votes st id).2 id a vt j =
      (Except.error EngineError.UnknownDecision, (tally_votes st id).2)) := by
  have heq : tally_votes st id = (Except.ok (computeTally s),
      { st with
          pending_decisions := st.pending_decisions.filter (fun p => p.1 != id),
          finalized_decisions := (id, s, computeTally s) :: st.finalized_decisions }) := by
    unfold tally_votes
    rw [h]
  have hpend : (tally_votes st id).2.pending_decisions.lookup id = none := by
    rw [heq]
    exact lookup_filter_self _ _
  have hfin : (tally_votes st id).2.finalized_decisions.lookup id =
      some (s, computeTally s) := by
    rw [heq]
    simp [List.lookup_cons]
  refine ⟨heq, hpend, hfin, ?_, ?_⟩
  · exact tally_votes_of_finalized _ _ _ _ hpend hfin
  · intro a vt j
    exact cast_vote_unknown _ _ _ _ _ hpend

/-- Witness for C5 on Scenario A. -/
theorem tally_votes_finalizes_once_witness :
    scenarioA.pending_decisions.lookup "scenario_a" = some scenarioASession ∧
    tally_votes (tally_votes scenarioA "scenario_a").2 "scenario_a" =
      (Except.ok (computeTally scenarioASession), (tally_votes scenarioA "scenario_a").2) :=
  ⟨by decide,
    (tally_votes_finalizes_once scenarioA "scenario_a" scenarioASession
      (by decide)).2.2.2.1⟩

/-- Claim C7. `tally_votes` reports a consensus percentage equal to
`approve_count / len(required_agents) * 100` rounded to one decimal
place; unanimous approval yields exactly 100.0, and Scenario A (3
approvals among 4 required agents) yields exactly 75.0. -/
theorem tally_consensus_percentage (st : EngineState) (id : String) (s : VoteSession)
    (h : st.pending_decisions.lookup id = some s)
    (hN : 0 < s.required_agents.length) :
    tallyOk st id = some (computeTally s) ∧
    (computeTally s).consensus_percentage =
      ((round ((countVote s.votes VoteType.APPROVE : ℚ) /
          (s.required_agents.length : ℚ) * 100 * 10) : ℤ) : ℚ) / 10 ∧
    (countVote s.votes VoteType.APPROVE = s.required_agents.length →
      (computeTally s).consensus_percentage = 100) ∧
    tallyOk scenarioA "scenario_a" = some scenarioATally ∧
    scenarioATally.consensus_percentage = 75 := by
  refine ⟨?_, ?_, ?_, by decide, ?_⟩
  · unfold tallyOk tally_votes
    rw [h]
  · have harg : (countVote s.votes VoteType.APPROVE : ℚ) /
        (s.required_agents.length : ℚ) * 100 * 10 =
        (1000 * (countVote s.votes VoteType.APPROVE : ℚ)) /
          (s.required_agents.length : ℚ) := by
      ring
    rw [harg]
    have hc := pct_tenths_cast (countVote s.votes VoteType.APPROVE)
      s.required_agents.length hN
    show ((pct_tenths (countVote s.votes VoteType.APPROVE)
        s.required_agents.length : ℕ) : ℚ) / 10 = _
    rw [← hc]
    push_cast
    ring
  · intro hall
    show ((pct_tenths (countVote s.votes VoteType.APPROVE)
        s.required_agents.length : ℕ) : ℚ) / 10 = 100
    rw [hall, pct_tenths_self s.required_agents.length hN]
    norm_num
  · show ((750 : ℕ) : ℚ) / 10 = 75
    norm_num

/-- Witness for C7 on Scenario A. -/
theorem tally_consensus_percentage_witness :
    scenarioA.pending_decisions.lookup "scenario_a" = some scenarioASession ∧
    0 < scenarioASession.required_agents.length ∧
    tallyOk scenarioA "scenario_a" = some scenarioATally ∧
    scenarioATally.consensus_percentage = 75 :=
  ⟨by decide, by decide,
    (tally_consensus_percentage scenarioA "scenario_a" scenarioASession
      (by decide) (by decide)).2.2.2.1,
    (tally_consensus_percentage scenarioA "scenario_a" scenarioASession
      (by decide) (by decide)).2.2.2.2⟩

end CollectiveBrain
